import Mathlib

/-!
Verification of the worker orchestration core of the life-memory-bank
repository against its natural-language specification.

Shallow embedding of the four Python worker scripts:
* `Whisper`   — src/voice-mcp/python/whisper_worker.py
* `Streaming` — src/voice-mcp/python/whisper_streaming_worker.py
* `Openai`    — src/voice-mcp/python/openai_transcription_worker.py
* `AiWorker`  — src/python/ai_worker.py

Conventions of the embedding:
* Python floats are modelled as exact rationals (`Rat`); float rounding is
  not modelled, float formatting in human-readable messages is modelled by
  simplified deterministic renderings (the protocol does not parse them).
* The opaque collaborators (the local Whisper model, the OpenAI endpoints,
  the LangChain text generator, the filesystem and the wall clock) are
  passed in as explicit oracle arguments: an `Except`/`Option` value or a
  function describing the collaborator's behaviour for this run.
* Each worker's event protocol (one JSON object per line on stdout) is
  modelled by the inductive type `Event`; a run of a worker is a Lean
  function returning the ordered list of emitted events next to its value.
-/

/-- A transcript segment as emitted by the workers:
`{"start": float, "end": float, "text": str}` (the `end` field is called
`stop` here because `end` is a Lean keyword). -/
structure Segment where
  start : Rat
  stop : Rat
  text : String
deriving DecidableEq

/-- A raw segment as returned by the whisper backend: a dict that may or
may not carry each key.  Only the keys the workers read are modelled. -/
structure RawSegment where
  start : Option Rat
  stop : Option Rat
  text : Option String
  avg_logprob : Option Rat
deriving DecidableEq

/-- A raw result dict as returned by `model.transcribe`: the workers read
the keys `text`, `language` and `segments`, each of which may be absent. -/
structure RawResult where
  text : Option String
  language : Option String
  segments : Option (List RawSegment)
deriving DecidableEq

/-- A segment record produced by `convert_segments_format` in the OpenAI
worker: every field is present, absent source attributes are defaulted. -/
structure ConvertedSegment where
  id : Int
  seek : Int
  start : Rat
  stop : Rat
  text : String
  tokens : List Int
  temperature : Rat
  avg_logprob : Rat
  compression_ratio : Rat
  no_speech_prob : Rat
deriving DecidableEq

/-- The line-delimited event protocol.  The wire format has a single
`result` kind whose payload differs per worker; the three shapes are
embedded as three constructors. -/
inductive Event where
  | progress (value : Int) (msg : String)
  | error (err : String) (details : Option String)
  | resultLocal (text language : String) (segments : List Segment)
  | resultStreaming (text language : String) (segments : List Segment) (confidence : Rat)
  | resultOpenai (text language : String) (segments : List ConvertedSegment)
  | chunkResult (chunkId text language : String) (segments : List Segment) (confidence : Rat)
  | chunkError (chunkId : String) (err : String)
  | cancelled (reason : String)
  | modelReady (modelName : String)
  | modelShutdown (modelName : String)
deriving DecidableEq

/-- The terminal event kinds of the protocol: `result`, `error`,
`cancelled` (chunk-level events and warm-mode events are not terminal). -/
def isTerminal : Event → Bool
  | .progress _ _ => false
  | .error _ _ => true
  | .resultLocal _ _ _ => true
  | .resultStreaming _ _ _ _ => true
  | .resultOpenai _ _ _ => true
  | .chunkResult _ _ _ _ _ => false
  | .chunkError _ _ => false
  | .cancelled _ => true
  | .modelReady _ => false
  | .modelShutdown _ => false

/-- Number of terminal events in a trace. -/
def terminalCount (tr : List Event) : Nat := tr.countP isTerminal

/-- Whether an event is a `result` event (of any of the three shapes). -/
def isResultEvent : Event → Bool
  | .resultLocal _ _ _ => true
  | .resultStreaming _ _ _ _ => true
  | .resultOpenai _ _ _ => true
  | _ => false

/-- The chunk identifier of a `chunk_result` event, if any. -/
def chunkResultId : Event → Option String
  | .chunkResult cid _ _ _ _ => some cid
  | _ => none

/-- The chunk identifier of a `chunk_error` event, if any. -/
def chunkErrorId : Event → Option String
  | .chunkError cid _ => some cid
  | _ => none

/-- Whether an event is a `chunk_result` event. -/
def isChunkResult (e : Event) : Bool := (chunkResultId e).isSome

/-- Whether an event is a `chunk_error` event. -/
def isChunkError (e : Event) : Bool := (chunkErrorId e).isSome

/-- The integer values carried by the `progress` events of a trace, in
emission order. -/
def progressValues (tr : List Event) : List Int :=
  tr.filterMap fun e => match e with
    | .progress v _ => some v
    | _ => none

/-- Number of strict decreases between consecutive entries of a list.
`descents l = 0` states that `l` is non-decreasing. -/
def descents (l : List Int) : Nat :=
  (l.zip l.tail).countP fun p => decide (p.2 < p.1)

/-- Python's `int()` applied to a (rational-valued) float: truncation
toward zero. -/
def pyInt (q : Rat) : Int := if 0 ≤ q then ⌊q⌋ else ⌈q⌉

/-- Python's `str.strip()` with no argument: remove leading and trailing
whitespace. -/
def pyStrip (s : String) : String :=
  String.mk (((s.data.dropWhile Char.isWhitespace).reverse.dropWhile Char.isWhitespace).reverse)

/-- Python's `str.strip(c)` for a single-character argument: remove all
leading and trailing occurrences of `c`. -/
def pyStripChar (c : Char) (s : String) : String :=
  String.mk (((s.data.dropWhile (· == c)).reverse.dropWhile (· == c)).reverse)

/-- Python's slice `s[:n]` on a string. -/
def pyTake (s : String) (n : Nat) : String := String.mk (s.data.take n)

deriving instance DecidableEq for Except

namespace Whisper

/-- `PROCESSING_SPEED_FACTORS` dict of whisper_worker.py together with the
`.get(model_name, 2.0)` default used at every lookup site. -/
def PROCESSING_SPEED_FACTORS (name : String) : Rat :=
  if name = "tiny" then 5
  else if name = "base" then 3
  else if name = "small" then 2
  else if name = "medium" then 3/2
  else if name = "large" then 1
  else if name = "turbo" then 5/2
  else 2

/-- `get_audio_duration` of whisper_worker.py.  `sizeResult` is the outcome
of `os.path.getsize`: `some n` when the size is readable, `none` when the
call raises (the bare `except` then returns the 60-second default). -/
def get_audio_duration (sizeResult : Option Nat) : Rat :=
  match sizeResult with
  | some file_size => max ((file_size : Rat) / (16 * 1024)) 1
  | none => 60

/-- The state computed by `ProgressReporter.__init__` (the wall-clock
fields `start_time`/`stop_event`/`thread` are carried implicitly by the
`elapsed` argument of `reportTick`). -/
structure ProgressReporterState where
  duration : Rat
  speed_factor : Rat
  estimated_processing_time : Rat
deriving DecidableEq

/-- `ProgressReporter.__init__(duration, model_name)`. -/
def ProgressReporter_mk (duration : Rat) (model_name : String) : ProgressReporterState :=
  let sf := PROCESSING_SPEED_FACTORS model_name
  ⟨duration, sf, duration / sf⟩

/-- One iteration of the `ProgressReporter._report_progress` loop: given
the estimated processing time and the elapsed wall-clock time at this
tick, the progress event emitted by the tick.  The loop repeats this every
second until `stop()` sets the stop event. -/
def reportTick (estimated_processing_time elapsed : Rat) : Event :=
  if elapsed < estimated_processing_time then
    let progress_ratio := elapsed / estimated_processing_time
    let remaining_time := estimated_processing_time - elapsed
    Event.progress (30 + pyInt (progress_ratio * 55))
      ("Processing audio (est. " ++ toString (pyInt remaining_time) ++ "s remaining)")
  else
    Event.progress 85 "Processing audio (finalizing...)"

/-- The whole tick sequence of one reporter run: the events emitted at the
given elapsed times, in order, until `stop()` is called. -/
def reportRun (estimated_processing_time : Rat) (elapsedTicks : List Rat) : List Event :=
  elapsedTicks.map (reportTick estimated_processing_time)

end Whisper

namespace Streaming

/-- The pair of process-wide globals `LOADED_MODEL` / `LOADED_MODEL_NAME`
of whisper_streaming_worker.py, plus an instrumentation counter recording
how many times `whisper.load_model` has been invoked.  `loadedName = none`
models `LOADED_MODEL is None`. -/
structure CacheState where
  loadedName : Option String
  loadCount : Nat
deriving DecidableEq

/-- Result of one `load_model_if_needed` call. -/
structure LoadOutcome where
  state : CacheState
  result : Except String Unit
  events : List Event
deriving DecidableEq

/-- Device selection inside `load_model_if_needed`: CUDA only for the
small allow-listed models, CPU otherwise. -/
def whisperDevice (cudaAvailable : Bool) (name : String) : String :=
  if cudaAvailable && (name = "tiny" || name = "base") then "cuda" else "cpu"

/-- `load_model_if_needed` of whisper_streaming_worker.py.  `loadResult`
is the outcome of the opaque `whisper.load_model` call; it is consulted
only when the cache misses.  On a load failure the globals are left
unchanged, an error event is emitted and the exception propagates. -/
def load_model_if_needed (st : CacheState) (model_name : String) (cudaAvailable : Bool)
    (loadResult : Except String Unit) : LoadOutcome :=
  if st.loadedName = some model_name then
    ⟨st, .ok (), []⟩
  else
    match loadResult with
    | .ok _ =>
        ⟨⟨some model_name, st.loadCount + 1⟩, .ok (),
         [Event.progress 10 ("Loading Whisper model: " ++ model_name),
          Event.progress 20 ("Model " ++ model_name ++ " loaded on " ++ whisperDevice cudaAvailable model_name)]⟩
    | .error e =>
        ⟨st, .error e,
         [Event.progress 10 ("Loading Whisper model: " ++ model_name),
          Event.error ("Failed to load model: " ++ e) (some "traceback")]⟩

/-- One iteration of the `calculate_confidence` loop: a segment carrying
`avg_logprob` adds its clamped confidence `min(1.0, max(0.0, lp + 1.0))`
to the running total and bumps the count; other segments are skipped. -/
def confStep (acc : Rat × Nat) (s : RawSegment) : Rat × Nat :=
  match s.avg_logprob with
  | some lp => (acc.1 + min 1 (max 0 (lp + 1)), acc.2 + 1)
  | none => acc

/-- `calculate_confidence` of whisper_streaming_worker.py: early return
0.0 when the `segments` key is absent or the list is empty (falsy),
otherwise a running sum/count over the segments that carry `avg_logprob`,
divided at the end (0.0 when no segment carried the value). -/
def calculate_confidence (result : RawResult) : Rat :=
  match result.segments with
  | none => 0
  | some segs =>
    if segs.isEmpty then 0
    else
      let acc := segs.foldl confStep (0, 0)
      if acc.2 > 0 then acc.1 / acc.2 else 0

/-- Segment extraction shared by both workers' result handling:
`float(segment.get("start", 0))`, `float(segment.get("end", 0))`,
`segment.get("text", "").strip()` over `result["segments"]` (or `[]` when
the key is absent). -/
def extractSegments (result : RawResult) : List Segment :=
  match result.segments with
  | none => []
  | some segs => segs.map fun s => ⟨s.start.getD 0, s.stop.getD 0, pyStrip (s.text.getD "")⟩

/-- The normalized return value of `transcribe_chunk_fast`. -/
structure TranscribeOut where
  text : String
  language : String
  segments : List Segment
  confidence : Rat
  processing_time : Rat
deriving DecidableEq

/-- `transcribe_chunk_fast` of whisper_streaming_worker.py.  `outcome` is
the opaque `model.transcribe` call (a `FileNotFoundError` for a missing
file is one of its `.error` cases), `processing_time` the wall-clock time
the call took.  On failure the function emits an error event and
re-raises; the traceback detail string is abstracted. -/
def transcribe_chunk_fast (outcome : Except String RawResult) (chunk_id : Option String)
    (processing_time : Rat) : Except String TranscribeOut × List Event :=
  let cidShown := match chunk_id with | some s => s | none => "None"
  let ev0 := [Event.progress 30 ("Processing chunk " ++ cidShown)]
  match outcome with
  | .error e =>
      (.error e, ev0 ++ [Event.error ("Chunk transcription failed: " ++ e) (some "traceback")])
  | .ok result =>
      let confidence := calculate_confidence result
      let segments := extractSegments result
      (.ok ⟨pyStrip (result.text.getD ""), result.language.getD "unknown",
            segments, confidence, processing_time⟩,
       ev0 ++ [Event.progress 80 ("Transcription completed in " ++ toString processing_time ++ "s"),
               Event.progress 90 "Processing complete"])

end Streaming

namespace Streaming

/-- One entry of the `--chunk-files` JSON list: a dict with a `file` key
and an optional `id` key. -/
structure ChunkInfo where
  file : String
  id : Option String
deriving DecidableEq

/-- `chunk_info.get("id", f"chunk_{i}")` for the chunk at position `i`. -/
def chunkIdOf (i : Nat) (c : ChunkInfo) : String :=
  c.id.getD ("chunk_" ++ toString i)

/-- The chunk identifiers of a chunk list starting at position `i`, in
input order (used to state the ordering guarantee of batch mode). -/
def idsOf : Nat → List ChunkInfo → List String
  | _, [] => []
  | i, c :: rest => chunkIdOf i c :: idsOf (i + 1) rest

/-- The per-chunk loop of `batch_transcribe_chunks`: for the chunk at
position `i` of `n`, emit the batch-level progress header, run
`transcribe_chunk_fast`, then emit `chunk_result` on success or
`chunk_error` on failure (the per-item isolation boundary), and continue
with the rest.  `outcomes` and `times` give the backend call's outcome and
wall-clock duration per chunk position. -/
def batchLoop (outcomes : Nat → Except String RawResult) (times : Nat → Rat) (n : Nat) :
    Nat → List ChunkInfo → List Event
  | _, [] => []
  | i, c :: rest =>
    let chunk_id := chunkIdOf i c
    let hdr := Event.progress ((30 + i * 60 / n : Nat) : Int)
      ("Processing chunk " ++ toString (i + 1) ++ "/" ++ toString n)
    let r := transcribe_chunk_fast (outcomes i) (some chunk_id) (times i)
    (hdr :: r.2 ++
      (match r.1 with
       | .ok res => [Event.chunkResult chunk_id res.text res.language res.segments res.confidence]
       | .error e => [Event.chunkError chunk_id e])) ++
    batchLoop outcomes times n (i + 1) rest

/-- `batch_transcribe_chunks` of whisper_streaming_worker.py: load the
model once via the cache, process every chunk through the isolating loop,
then report overall batch completion; a model-load failure aborts the
batch through the outer handler (which emits a terminal error after the
load's own error event). -/
def batch_transcribe_chunks (st : CacheState) (model_name : String) (cudaAvailable : Bool)
    (loadResult : Except String Unit) (outcomes : Nat → Except String RawResult)
    (times : Nat → Rat) (chunk_files : List ChunkInfo) : List Event :=
  let lo := load_model_if_needed st model_name cudaAvailable loadResult
  Event.progress 0 "Starting batch transcription" ::
    (match lo.result with
     | .error e => lo.events ++ [Event.error ("Batch transcription failed: " ++ e) (some "traceback")]
     | .ok _ =>
        lo.events ++ batchLoop outcomes times chunk_files.length 0 chunk_files ++
          [Event.progress 100 "Batch processing complete"])

/-- `single_chunk_transcribe` of whisper_streaming_worker.py (single
mode): load the model, transcribe one chunk, emit the final progress and
result; any failure is caught by the function's own handler, which emits a
(second) error event. -/
def single_chunk_transcribe (st : CacheState) (model_name : String) (cudaAvailable : Bool)
    (loadResult : Except String Unit) (outcome : Except String RawResult)
    (processing_time : Rat) (chunk_id : Option String) : List Event :=
  let lo := load_model_if_needed st model_name cudaAvailable loadResult
  Event.progress 0 "Starting real-time transcription" ::
    (match lo.result with
     | .error e => lo.events ++ [Event.error ("Single chunk transcription failed: " ++ e) (some "traceback")]
     | .ok _ =>
        let r := transcribe_chunk_fast outcome chunk_id processing_time
        lo.events ++ r.2 ++
          (match r.1 with
           | .ok res =>
              [Event.progress 100 "Transcription complete",
               Event.resultStreaming res.text res.language res.segments res.confidence]
           | .error e => [Event.error ("Single chunk transcription failed: " ++ e) (some "traceback")]))

end Streaming

namespace Openai

/-- `MAX_FILE_SIZE = 25 * 1024 * 1024` (25MB hard limit). -/
def MAX_FILE_SIZE : Nat := 25 * 1024 * 1024

/-- `TARGET_FILE_SIZE = 24 * 1024 * 1024` (24MB target). -/
def TARGET_FILE_SIZE : Nat := 24 * 1024 * 1024

/-- `COST_PER_MINUTE = 0.006`. -/
def COST_PER_MINUTE : Rat := 6 / 1000

/-- The supported extensions checked by `validate_file_basic`. -/
def supported_extensions : List String :=
  [".mp3", ".mp4", ".mpeg", ".mpga", ".m4a", ".wav", ".webm"]

/-- Outcome of the `client.audio.transcriptions.create` call, classified
by the exception types the worker catches. -/
inductive ApiOutcome where
  | ok (text : String) (language : Option String) (segments : Option (List ConvertedSegment))
  | authError (m : String)
  | rateLimitError (m : String)
  | badRequestError (m : String)
  | apiError (m : String)
  | otherError (m : String)
deriving DecidableEq

/-- Whether an `ApiOutcome` is a success. -/
def ApiOutcome.isOk : ApiOutcome → Bool
  | .ok _ _ _ => true
  | _ => false

/-- The environment of one OpenAI-worker request: the input file, the
behaviour of the opaque collaborators (filesystem, pydub decoder/encoder,
OpenAI endpoint) for this run, and the fresh temporary path the OS hands
out for the truncated file.  The response segments are given already in
`convert_segments_format`'s all-fields-defaulted shape; the attribute-level
`getattr` defaulting and the per-segment skip of unconvertible records are
collaborator behaviour folded into this oracle. -/
structure World where
  path : String
  fileExists : Bool
  ext : String
  sizeOk : Bool
  sizeBytes : Nat
  decodeOk : Bool
  decodeErrMsg : String
  durationMs : Nat
  exportOk : Bool
  exportErrMsg : String
  truncSizeBytes : Nat
  tempPath : String
  langArg : Option String
  api : String → ApiOutcome

/-- `validate_file_basic` of openai_transcription_worker.py. -/
def validate_file_basic (w : World) : Except String Unit :=
  if w.fileExists = false then
    .error ("File not found: " ++ w.path)
  else if supported_extensions.contains w.ext = false then
    .error ("Unsupported file format: " ++ w.ext)
  else
    .ok ()

/-- `get_file_size` of openai_transcription_worker.py, for the original
input path and for the temporary path.  When `sizeOk` is false the
underlying `os.path.getsize` raises and the worker re-raises a
`ValueError`; the temporary file (written by this very worker) is read
back only on paths on which the original was already readable, so the
single flag loses nothing observable. -/
def get_file_size (w : World) (p : String) : Except String Nat :=
  if w.sizeOk then
    .ok (if p = w.tempPath then w.truncSizeBytes else w.sizeBytes)
  else
    .error ("Cannot access file: " ++ w.path)

/-- `estimate_audio_duration` of openai_transcription_worker.py: size/16KiB
seconds, at least 1 second, defaulting to 60 seconds when the size is
unreadable (the bare `except` path). -/
def estimate_audio_duration (w : World) (p : String) : Rat :=
  match get_file_size w p with
  | .ok file_size => max 1 ((file_size : Rat) / (16 * 1024))
  | .error _ => 60

/-- `calculate_estimated_cost` of openai_transcription_worker.py. -/
def calculate_estimated_cost (w : World) (p : String) : Rat :=
  estimate_audio_duration w p / 60 * COST_PER_MINUTE

/-- Rendering of a byte count as megabytes with one (truncated) decimal,
standing in for Python's f-string `{x:.1f}` (which rounds; the messages
are human-readable only and never parsed). -/
def fmtMB1 (n : Nat) : String :=
  let t := n * 10 / (1024 * 1024)
  toString (t / 10) ++ "." ++ toString (t % 10) ++ "MB"

/-- Rendering of a millisecond count as seconds with one (truncated)
decimal, standing in for Python's `{ms/1000:.1f}`. -/
def fmtSecs1 (ms : Int) : String :=
  let n := ms.toNat
  toString (n / 1000) ++ "." ++ toString (n / 100 % 10)

/-- The data of a successful `truncate_audio_file` call: the temporary
path, the kept duration `int(original_duration * size_ratio)` in
milliseconds, the length of the exported slice `audio[:target_duration]`,
and the fixed export bitrate. -/
structure TruncInfo where
  path : String
  target_duration : Int
  truncatedMs : Nat
  bitrate : String
deriving DecidableEq

/-- `truncate_audio_file` of openai_transcription_worker.py.  Returns the
outcome, the events emitted, and the list of temporary files created on
disk during the call (the `NamedTemporaryFile` is created *before* the
export; a failing export raises with the partially-written file left in
place, since this function installs no cleanup handler). -/
def truncate_audio_file (w : World) : Except String TruncInfo × List Event × List String :=
  let ev0 := [Event.progress 15 "Loading audio file for truncation..."]
  if w.decodeOk = false then
    (.error w.decodeErrMsg, ev0, [])
  else
    let ev1 := ev0 ++ [Event.progress 25 "Calculating truncation point..."]
    match get_file_size w w.path with
    | .error e => (.error e, ev1, [])
    | .ok original_size =>
      let size_ratio : Rat := (TARGET_FILE_SIZE : Rat) / (original_size : Rat)
      let target_duration : Int := pyInt ((w.durationMs : Rat) * size_ratio)
      let ev2 := ev1 ++ [Event.progress 35 ("Truncating to " ++ fmtSecs1 target_duration ++ " seconds...")]
      let truncatedMs : Nat := min target_duration.toNat w.durationMs
      let created := [w.tempPath]
      let ev3 := ev2 ++ [Event.progress 45 "Saving truncated file..."]
      if w.exportOk = false then
        (.error w.exportErrMsg, ev3, created)
      else
        let ev4 := ev3 ++ [Event.progress 50 ("Truncated file size: " ++ fmtMB1 w.truncSizeBytes)]
        (.ok ⟨w.tempPath, target_duration, truncatedMs, "128k"⟩, ev4, created)

/-- The result dict returned by `transcribe_with_openai`. -/
structure TranscriptionOut where
  text : String
  language : String
  segments : List ConvertedSegment
deriving DecidableEq

/-- Result of one `transcribe_with_openai` call: its value, the events it
emitted, the temporary files it created, the temporary files still on
disk when it returns or raises, which file was handed to the API call,
and the truncation performed (if any). -/
structure OpenaiRun where
  value : Except String TranscriptionOut
  events : List Event
  created : List String
  remaining : List String
  uploadedPath : Option String
  truncation : Option TruncInfo

/-- The `try ... finally` tail of `transcribe_with_openai`: cost
estimation, upload, API call, response normalization, and the `finally`
block that deletes the temporary file recorded in `temp_file_to_cleanup`
(if any). -/
def transcribeTail (w : World) (ev : List Event) (created : List String)
    (temp_file_to_cleanup : Option String) (tinfo : Option TruncInfo)
    (transcription_file : String) : OpenaiRun :=
  let ev := ev ++ [Event.progress 55 "Calculating estimated cost..."]
  let estimated_cost := calculate_estimated_cost w transcription_file
  let ev := ev ++
    [Event.progress 60 ("Estimated cost: $" ++ toString estimated_cost),
     Event.progress 65 "Uploading file to OpenAI...",
     Event.progress 75 "Processing transcription..."]
  let remaining := match temp_file_to_cleanup with
    | some p => created.filter (fun q => q ≠ p)
    | none => created
  match w.api transcription_file with
  | .ok text language segments =>
      let detected_language := language.getD
        (match w.langArg with
         | some l => if l.isEmpty then "unknown" else l
         | none => "unknown")
      let segs := match segments with
        | some l => if l.isEmpty then [] else l
        | none => []
      ⟨.ok ⟨text, detected_language, segs⟩,
       ev ++ [Event.progress 90 "Processing response...",
              Event.progress 100 "Transcription completed"],
       created, remaining, some transcription_file, tinfo⟩
  | .authError m =>
      ⟨.error ("Authentication failed: " ++ m), ev, created, remaining, some transcription_file, tinfo⟩
  | .rateLimitError m =>
      ⟨.error ("Rate limit exceeded: " ++ m), ev, created, remaining, some transcription_file, tinfo⟩
  | .badRequestError m =>
      ⟨.error ("Bad request: " ++ m), ev, created, remaining, some transcription_file, tinfo⟩
  | .apiError m =>
      ⟨.error ("OpenAI API error: " ++ m), ev, created, remaining, some transcription_file, tinfo⟩
  | .otherError m =>
      ⟨.error ("Transcription failed: " ++ m), ev, created, remaining, some transcription_file, tinfo⟩

/-- `transcribe_with_openai` of openai_transcription_worker.py: validate,
check the size against the 25MB hard limit, truncate through
`truncate_audio_file` when above it (a truncation failure raises a
`ValueError` *before* the `try`/`finally` is entered, so no cleanup runs
on that path and `temp_file_to_cleanup` was never set), then run the
API-call tail with its `finally` cleanup. -/
def transcribe_with_openai (w : World) : OpenaiRun :=
  let ev := [Event.progress 5 "Validating file..."]
  match validate_file_basic w with
  | .error e => ⟨.error e, ev, [], [], none, none⟩
  | .ok _ =>
    let ev := ev ++ [Event.progress 10 "Checking file size..."]
    match get_file_size w w.path with
    | .error e => ⟨.error e, ev, [], [], none, none⟩
    | .ok file_size =>
      if MAX_FILE_SIZE < file_size then
        let ev := ev ++ [Event.progress 12 ("File too large (" ++ fmtMB1 file_size ++ "), truncating to 24MB...")]
        match truncate_audio_file w with
        | (.error e, tev, created) =>
            ⟨.error ("Failed to truncate audio file: " ++ e), ev ++ tev, created, created, none, none⟩
        | (.ok tinfo, tev, created) =>
            transcribeTail w (ev ++ tev) created (some tinfo.path) (some tinfo) tinfo.path
      else
        let ev := ev ++ [Event.progress 15 "File size OK, processing normally..."]
        transcribeTail w ev [] none none w.path

/-- `save_output` of openai_transcription_worker.py: nothing when no
output path is requested; on a write failure it emits an error event and
returns normally (the failure is swallowed). -/
def save_output (output_path : Option String) (writeResult : Except String Unit) : List Event :=
  match output_path with
  | none => []
  | some _ =>
    match writeResult with
    | .ok _ => []
    | .error e => [Event.error ("Failed to save output file: " ++ e) (some "")]

/-- `main` of openai_transcription_worker.py: returns the full emitted
trace and the process exit code.  `apiKeyPresent` models the key lookup
in `create_openai_client`, `clientResult` the `OpenAI(...)` constructor,
`writeResult` the output-file write in `save_output`. -/
def openai_main (w : World) (apiKeyPresent : Bool) (clientResult : Except String Unit)
    (output_path : Option String) (writeResult : Except String Unit) : List Event × Nat :=
  let ev := [Event.progress 0 "Starting OpenAI transcription...",
             Event.progress 2 "Initializing OpenAI client..."]
  if apiKeyPresent = false then
    (ev ++ [Event.error "OpenAI API key not provided. Set OPENAI_API_KEY environment variable or pass --api-key" (some "")], 1)
  else
    match clientResult with
    | .error e => (ev ++ [Event.error ("Unexpected error: " ++ e) (some "Exception")], 1)
    | .ok _ =>
      let run := transcribe_with_openai w
      match run.value with
      | .error e => (ev ++ run.events ++ [Event.error e (some "")], 1)
      | .ok res =>
        let sev := save_output output_path writeResult
        (ev ++ run.events ++ sev ++ [Event.resultOpenai res.text res.language res.segments], 0)

end Openai

namespace AiWorker

/-- `generate_title` of ai_worker.py.  `invokeResult` is the outcome of
the LangChain `chain.invoke` call on the (already truncated) transcript.
On success the content is stripped of whitespace and surrounding quotes;
on failure the handler emits an error event and returns the fallback
title `"Untitled Recording"` — the exception is swallowed. -/
def generate_title (invokeResult : Except String String) : String × List Event :=
  let ev0 := [Event.progress 25 "Generating title..."]
  match invokeResult with
  | .ok content =>
      (pyStripChar '\'' (pyStripChar '"' (pyStrip content)),
       ev0 ++ [Event.progress 50 "Title generated"])
  | .error e =>
      ("Untitled Recording",
       ev0 ++ [Event.error ("Title generation failed: " ++ e) (some "traceback")])

/-- `generate_summary` of ai_worker.py.  On failure it emits an error
event and returns the fallback text `"Summary generation failed."`. -/
def generate_summary (invokeResult : Except String String) : String × List Event :=
  let ev0 := [Event.progress 75 "Generating summary..."]
  match invokeResult with
  | .ok content =>
      (pyStrip content, ev0 ++ [Event.progress 95 "Summary generated"])
  | .error e =>
      ("Summary generation failed.",
       ev0 ++ [Event.error ("Summary generation failed: " ++ e) (some "traceback")])

/-- `process_transcript` of ai_worker.py: validate the key and transcript,
create the client (`clientResult` is the `ChatOpenAI` constructor's
outcome; on failure `create_openai_client` emits its own error event,
re-raises, and the outer handler emits a second one), then generate title
and summary with the input-length caps of 2000 and 4000 characters.
`titleInvoke`/`summaryInvoke` are the LangChain invocation oracles, given
the capped transcript. -/
def process_transcript (api_key transcript : String) (clientResult : Except String Unit)
    (titleInvoke summaryInvoke : String → Except String String) :
    Except String (String × String) × List Event :=
  let ev := [Event.progress 0 "Starting AI processing"]
  if api_key = "" then
    (.error "OpenAI API key is required",
     ev ++ [Event.error "AI processing failed: OpenAI API key is required" (some "traceback")])
  else if (pyStrip transcript).length < 10 then
    (.error "Transcript is too short or empty",
     ev ++ [Event.error "AI processing failed: Transcript is too short or empty" (some "traceback")])
  else
    match clientResult with
    | .error e =>
        (.error e,
         ev ++ [Event.error ("Failed to create OpenAI client: " ++ e) (some "traceback"),
                Event.error ("AI processing failed: " ++ e) (some "traceback")])
    | .ok _ =>
        let ev := ev ++ [Event.progress 10 "OpenAI client initialized"]
        let tr := generate_title (titleInvoke (pyTake transcript 2000))
        let sr := generate_summary (summaryInvoke (pyTake transcript 4000))
        (.ok (tr.1, sr.1),
         ev ++ tr.2 ++ sr.2 ++ [Event.progress 100 "AI processing complete"])

end AiWorker

/-! ### Specification-side definitions and concrete instances -/

/-- The aggregate confidence in the words of the specification: the
arithmetic mean of `clamp(avg_logprob + 1.0, 0.0, 1.0)` over exactly
those segments that carry `avg_logprob`, and `0.0` when no segment
carries the value (including an empty or absent segment list).  Stated
independently of the source's loop, to be compared with
`Streaming.calculate_confidence`. -/
def confidenceSpec (result : RawResult) : Rat :=
  let lps := (result.segments.getD []).filterMap (fun s => s.avg_logprob)
  if lps.isEmpty then 0
  else (lps.map (fun lp => min 1 (max 0 (lp + 1)))).sum / lps.length

/-- A sample backend result used by concrete runs. -/
def sampleRaw : RawResult := ⟨some "hello", some "en", some []⟩

/-- Concrete environment: a small, valid webm file; the API succeeds. -/
def worldSmallOk : Openai.World :=
  { path := "a.webm", fileExists := true, ext := ".webm", sizeOk := true,
    sizeBytes := 1000, decodeOk := true, decodeErrMsg := "", durationMs := 1000,
    exportOk := true, exportErrMsg := "", truncSizeBytes := 0, tempPath := "/tmp/t.mp3",
    langArg := none, api := fun _ => .ok "hi" (some "en") none }

/-- Concrete environment: a 30MB webm file whose mp3 re-encode fails
after the temporary file has been created. -/
def worldExportFail : Openai.World :=
  { path := "b.webm", fileExists := true, ext := ".webm", sizeOk := true,
    sizeBytes := 30 * 1024 * 1024, decodeOk := true, decodeErrMsg := "",
    durationMs := 240000, exportOk := false, exportErrMsg := "encoder crashed",
    truncSizeBytes := 0, tempPath := "/tmp/leak.mp3", langArg := none,
    api := fun _ => .ok "hi" (some "en") none }

/-- Concrete environment: a 30MB webm file whose truncation and API call
both succeed. -/
def worldLarge : Openai.World :=
  { path := "c.webm", fileExists := true, ext := ".webm", sizeOk := true,
    sizeBytes := 30 * 1024 * 1024, decodeOk := true, decodeErrMsg := "",
    durationMs := 240000, exportOk := true, exportErrMsg := "",
    truncSizeBytes := 23 * 1024 * 1024, tempPath := "/tmp/t24.mp3", langArg := none,
    api := fun _ => .ok "hi" (some "en") none }

/-- Concrete batch chunk list: three chunks with explicit identifiers. -/
def batchChunks : List Streaming.ChunkInfo :=
  [⟨"a.wav", some "c0"⟩, ⟨"b.wav", some "c1"⟩, ⟨"c.wav", some "c2"⟩]

/-- Concrete batch oracle: chunk 1 fails, the others succeed. -/
def batchOutcomes (i : Nat) : Except String RawResult :=
  if i = 1 then .error "decode failed" else .ok sampleRaw

/-- Concrete title-generation oracle used by witnesses. -/
def titleInvokeW (s : String) : Except String String := .ok ("\"" ++ pyTake s 5 ++ "\"")

/-- Concrete summary-generation oracle used by witnesses. -/
def summaryInvokeW (_ : String) : Except String String := .error "quota exceeded"

/-! ### Helper lemmas -/

/-- `pyInt` agrees with the floor on nonnegative values. -/
lemma pyInt_eq_floor {q : Rat} (h : 0 ≤ q) : pyInt q = ⌊q⌋ := by
  rw [pyInt, if_pos h]

/-- Truncating `d * (t / s)` agrees with the floor division `d * t / s`. -/
lemma pyInt_natCast_mul_div (d t s : Nat) (hs : 0 < s) :
    pyInt ((d : Rat) * ((t : Rat) / (s : Rat))) = ((d * t / s : Nat) : Int) := by
  have hq : (d : Rat) * ((t : Rat) / (s : Rat)) = ((d * t : Nat) : Rat) / (s : Rat) := by
    push_cast; ring
  rw [pyInt, if_pos (by positivity), hq, Rat.floor_natCast_div_natCast, Int.natCast_div]

/-- Slicing `audio[:target_duration]` keeps exactly the computed prefix
when the keep-ratio does not exceed one. -/
lemma trunc_slice_len (d t s : Nat) (ht : t ≤ s) (hs : 0 < s) :
    min (pyInt ((d : Rat) * ((t : Rat) / (s : Rat)))).toNat d = d * t / s := by
  rw [pyInt_natCast_mul_div d t s hs, Int.toNat_natCast]
  have hle : d * t / s ≤ d := by
    calc d * t / s ≤ d * s / s := Nat.div_le_div_right (Nat.mul_le_mul_left d ht)
    _ = d := Nat.mul_div_cancel d hs
  exact min_eq_left hle

/-- The speed-factor table only contains positive factors. -/
lemma speed_factor_pos (name : String) : 0 < Whisper.PROCESSING_SPEED_FACTORS name := by
  unfold Whisper.PROCESSING_SPEED_FACTORS
  split_ifs <;> norm_num

/-! ### Claim theorems -/

/-- C10: the audio-duration estimation used by the Progress Estimator is
total and at least one second — `max(fileSize / 16384, 1.0)` when the size
is readable and the fixed 60-second default otherwise — so the estimated
processing time `duration / speedFactor` is strictly positive and the
estimator's progress-ratio division is well-defined.  (The OpenAI worker's
clone of the estimation obeys the same lower bound.) -/
theorem audio_duration_total_and_positive (sizeResult : Option Nat) (n : Nat)
    (name : String) (w : Openai.World) (p : String) :
    Whisper.get_audio_duration (some n) = max ((n : Rat) / (16 * 1024)) 1
  ∧ Whisper.get_audio_duration none = 60
  ∧ 1 ≤ Whisper.get_audio_duration sizeResult
  ∧ 0 < Whisper.PROCESSING_SPEED_FACTORS name
  ∧ 0 < (Whisper.ProgressReporter_mk (Whisper.get_audio_duration sizeResult) name).estimated_processing_time
  ∧ 1 ≤ Openai.estimate_audio_duration w p := by
  have hsf := speed_factor_pos name
  have hdur : 1 ≤ Whisper.get_audio_duration sizeResult := by
    cases sizeResult with
    | none => norm_num [Whisper.get_audio_duration]
    | some m => simp only [Whisper.get_audio_duration]; exact le_max_right _ 1
  refine ⟨rfl, rfl, hdur, hsf, ?_, ?_⟩
  · exact div_pos (lt_of_lt_of_le one_pos hdur) hsf
  · unfold Openai.estimate_audio_duration
    cases Openai.get_file_size w p with
    | ok m => exact le_max_left 1 ((m : Rat) / (16 * 1024))
    | error e => norm_num

/-- C5: while the estimator runs with estimated processing time `T`, a
tick at elapsed time `e < T` emits the linear interpolation
`30 + floor((e / T) * 55)` (which lies in the reserved range `[30, 85]`)
with the estimated remaining time in its message, and a tick at `e ≥ T`
emits the fixed near-ceiling value 85 with the finalizing message,
repeatedly until the reporter is stopped. -/
theorem progress_estimator_tick_spec (T e : Rat) (he : 0 ≤ e) (hT : 0 < T) :
    (e < T →
        Whisper.reportTick T e =
          Event.progress (30 + ⌊e / T * 55⌋)
            ("Processing audio (est. " ++ toString ⌊T - e⌋ ++ "s remaining)")
      ∧ 30 ≤ 30 + ⌊e / T * 55⌋ ∧ 30 + ⌊e / T * 55⌋ ≤ 85)
  ∧ (T ≤ e → Whisper.reportTick T e = Event.progress 85 "Processing audio (finalizing...)") := by
  constructor
  · intro hlt
    have hratio : (0 : Rat) ≤ e / T * 55 := by positivity
    have hrem : (0 : Rat) ≤ T - e := by linarith
    refine ⟨?_, ?_, ?_⟩
    · rw [Whisper.reportTick, if_pos hlt]
      dsimp only
      rw [pyInt_eq_floor hratio, pyInt_eq_floor hrem]
    · have := Int.floor_nonneg.mpr hratio
      omega
    · have hlt55 : e / T * 55 < 55 := by
        have h1 : e / T < 1 := (div_lt_one hT).mpr hlt
        nlinarith
      have : ⌊e / T * 55⌋ < (55 : Int) := Int.floor_lt.mpr (by exact_mod_cast hlt55)
      omega
  · intro hge
    rw [Whisper.reportTick, if_neg (not_lt.mpr hge)]

/-- Witness for C5 at `T = 10`, `e = 3`. -/
theorem progress_estimator_tick_spec_witness :
    (0 : Rat) ≤ 3 ∧ (0 : Rat) < 10 ∧
    (((3 : Rat) < 10 →
        Whisper.reportTick 10 3 =
          Event.progress (30 + ⌊(3 : Rat) / 10 * 55⌋)
            ("Processing audio (est. " ++ toString ⌊(10 : Rat) - 3⌋ ++ "s remaining)")
      ∧ 30 ≤ 30 + ⌊(3 : Rat) / 10 * 55⌋ ∧ 30 + ⌊(3 : Rat) / 10 * 55⌋ ≤ 85)
    ∧ ((10 : Rat) ≤ 3 → Whisper.reportTick 10 3 = Event.progress 85 "Processing audio (finalizing...)")) :=
  ⟨by norm_num, by norm_num, progress_estimator_tick_spec 10 3 (by norm_num) (by norm_num)⟩

/-- C7: two successive `acquire`s of the same model identifier load the
backend exactly once (the second is a cache hit returning the cached
state unchanged and emitting nothing), and a subsequent `acquire` of a
different identifier performs exactly one reload, replacing the cached
instance. -/
theorem model_cache_acquire (a b : String) (cuda : Bool) (hab : a ≠ b) :
    (Streaming.load_model_if_needed ⟨none, 0⟩ a cuda (.ok ())).state.loadCount = 1
  ∧ (Streaming.load_model_if_needed ⟨none, 0⟩ a cuda (.ok ())).state.loadedName = some a
  ∧ (Streaming.load_model_if_needed
      (Streaming.load_model_if_needed ⟨none, 0⟩ a cuda (.ok ())).state a cuda (.ok ())).state
    = (Streaming.load_model_if_needed ⟨none, 0⟩ a cuda (.ok ())).state
  ∧ (Streaming.load_model_if_needed
      (Streaming.load_model_if_needed ⟨none, 0⟩ a cuda (.ok ())).state a cuda (.ok ())).events = []
  ∧ (Streaming.load_model_if_needed
      (Streaming.load_model_if_needed
        (Streaming.load_model_if_needed ⟨none, 0⟩ a cuda (.ok ())).state a cuda (.ok ())).state
      b cuda (.ok ())).state.loadCount = 2
  ∧ (Streaming.load_model_if_needed
      (Streaming.load_model_if_needed
        (Streaming.load_model_if_needed ⟨none, 0⟩ a cuda (.ok ())).state a cuda (.ok ())).state
      b cuda (.ok ())).state.loadedName = some b := by
  simp [Streaming.load_model_if_needed, hab, Ne.symm hab]

/-- Witness for C7 with the identifiers "tiny" and "base". -/
theorem model_cache_acquire_witness :
    ("tiny" : String) ≠ "base" ∧
    ((Streaming.load_model_if_needed ⟨none, 0⟩ "tiny" false (.ok ())).state.loadCount = 1
  ∧ (Streaming.load_model_if_needed ⟨none, 0⟩ "tiny" false (.ok ())).state.loadedName = some "tiny"
  ∧ (Streaming.load_model_if_needed
      (Streaming.load_model_if_needed ⟨none, 0⟩ "tiny" false (.ok ())).state "tiny" false (.ok ())).state
    = (Streaming.load_model_if_needed ⟨none, 0⟩ "tiny" false (.ok ())).state
  ∧ (Streaming.load_model_if_needed
      (Streaming.load_model_if_needed ⟨none, 0⟩ "tiny" false (.ok ())).state "tiny" false (.ok ())).events = []
  ∧ (Streaming.load_model_if_needed
      (Streaming.load_model_if_needed
        (Streaming.load_model_if_needed ⟨none, 0⟩ "tiny" false (.ok ())).state "tiny" false (.ok ())).state
      "base" false (.ok ())).state.loadCount = 2
  ∧ (Streaming.load_model_if_needed
      (Streaming.load_model_if_needed
        (Streaming.load_model_if_needed ⟨none, 0⟩ "tiny" false (.ok ())).state "tiny" false (.ok ())).state
      "base" false (.ok ())).state.loadedName = some "base") :=
  ⟨by decide, model_cache_acquire "tiny" "base" false (by decide)⟩

/-- The `calculate_confidence` fold accumulates the clamped sum and count
over exactly the segments carrying `avg_logprob`. -/
lemma confStep_foldl (segs : List RawSegment) (t : Rat) (c : Nat) :
    segs.foldl Streaming.confStep (t, c)
      = (t + ((segs.filterMap (fun s => s.avg_logprob)).map (fun lp => min 1 (max 0 (lp + 1)))).sum,
         c + (segs.filterMap (fun s => s.avg_logprob)).length) := by
  induction segs generalizing t c with
  | nil => simp
  | cons s rest ih =>
    cases h : s.avg_logprob with
    | none => simp [Streaming.confStep, h, ih]
    | some lp =>
      simp only [List.foldl_cons, Streaming.confStep, h, List.filterMap_cons, ih,
        List.map_cons, List.sum_cons, List.length_cons]
      rw [Prod.mk.injEq]
      constructor
      · ring
      · omega

/-- C8: the aggregate confidence computed by the LocalModel worker equals
the arithmetic mean of `clamp(avg_logprob + 1.0, 0.0, 1.0)` over exactly
the segments that carry `avg_logprob`, and equals 0.0 when no segment
carries the value, including when the segment list is empty or absent. -/
theorem calculate_confidence_eq_spec (result : RawResult) :
    Streaming.calculate_confidence result = confidenceSpec result := by
  unfold Streaming.calculate_confidence confidenceSpec
  cases hseg : result.segments with
  | none => simp
  | some segs =>
    simp only [Option.getD_some]
    by_cases hempty : segs.isEmpty
    · simp [hempty, List.isEmpty_iff.mp hempty]
    · rw [if_neg hempty]
      rw [confStep_foldl segs 0 0]
      simp only [zero_add, Nat.zero_add]
      rcases Nat.eq_zero_or_pos (segs.filterMap (fun s => s.avg_logprob)).length with h0 | hpos
      · rw [if_neg (by omega), if_pos (List.isEmpty_iff.mpr (List.length_eq_zero.mp h0))]
      · have hne : ¬ ((segs.filterMap (fun s => s.avg_logprob)).isEmpty = true) := by
          rw [List.isEmpty_iff, ← List.length_eq_zero]
          omega
        rw [if_pos hpos, if_neg hne]

/-- C3 (code bug): on a 30MB input whose mp3 re-encode fails after the
temporary file was created, `transcribe_with_openai` raises, yet the
partially-written temporary file is still on disk afterwards — the code
records `temp_file_to_cleanup` only *after* `truncate_audio_file` returns
successfully, and the `try`/`finally` cleanup block is entered only after
that point, so no exit path deletes the file.  The specification requires
that any partially-written temporary file still be cleaned up. -/
theorem temp_file_leak_on_failed_export :
    (Openai.transcribe_with_openai worldExportFail).created = ["/tmp/leak.mp3"]
  ∧ (Openai.transcribe_with_openai worldExportFail).remaining = ["/tmp/leak.mp3"]
  ∧ (Openai.transcribe_with_openai worldExportFail).value
      = .error "Failed to truncate audio file: encoder crashed" := by
  refine ⟨?_, ?_, ?_⟩ <;> decide

/-- C6 (counterexample): a batch of two successful chunks emits the
progress values [0, 10, 20, 30, 30, 80, 90, 60, 30, 80, 90, 100] — the
inner per-chunk progress restarts at the second chunk, so the sequence
decreases below the previously emitted maximum twice (90 to 60, then 60
to 30), contradicting both the at-most-one-reset allowance and the
never-below-the-running-maximum bound. -/
theorem batch_progress_decreases :
    progressValues (Streaming.batch_transcribe_chunks ⟨none, 0⟩ "tiny" false (.ok ())
        (fun _ => .ok sampleRaw) (fun _ => 1) [⟨"a.wav", some "c0"⟩, ⟨"b.wav", some "c1"⟩])
      = [0, 10, 20, 30, 30, 80, 90, 60, 30, 80, 90, 100]
  ∧ descents (progressValues (Streaming.batch_transcribe_chunks ⟨none, 0⟩ "tiny" false (.ok ())
        (fun _ => .ok sampleRaw) (fun _ => 1) [⟨"a.wav", some "c0"⟩, ⟨"b.wav", some "c1"⟩])) = 2 := by
  refine ⟨?_, ?_⟩ <;> decide

/-- C6 (amended): within a single-mode request of the streaming worker the
sequence of emitted progress values is non-decreasing, on every path
(cache hit or miss, load failure, transcription failure or success). -/
theorem single_mode_progress_nondecreasing (st : Streaming.CacheState) (name : String)
    (cuda : Bool) (loadResult : Except String Unit) (outcome : Except String RawResult)
    (t : Rat) (cid : Option String) :
    descents (progressValues (Streaming.single_chunk_transcribe st name cuda loadResult outcome t cid)) = 0 := by
  by_cases h : st.loadedName = some name <;>
    cases loadResult <;> cases outcome <;>
      simp only [Streaming.single_chunk_transcribe, Streaming.load_model_if_needed,
        Streaming.transcribe_chunk_fast, h, if_true, if_false, reduceIte] <;>
      rfl

/-- C9 (counterexample): with a failing title-generation backend,
`process_transcript` still returns a successful result whose title is the
fallback `"Untitled Recording"` — the failure is caught inside
`generate_title` and converted into continued processing, it does not
propagate to the caller. -/
theorem title_failure_swallowed :
    (AiWorker.process_transcript "sk-key" "a sufficiently long transcript" (.ok ())
        (fun _ => .error "rate limited") (fun _ => .ok "A summary.")).1
      = .ok ("Untitled Recording", "A summary.") := by
  decide

/-- C9 (amended): failures during title or summary generation are caught
inside the component and replaced by the fallback values
`"Untitled Recording"` and `"Summary generation failed."`, with
processing continuing to a successful result; a client-creation failure,
by contrast, does propagate to the caller. -/
theorem error_propagation_amended (api_key transcript : String)
    (ti si : String → Except String String)
    (h1 : api_key ≠ "") (h2 : 10 ≤ (pyStrip transcript).length) :
    (∀ e, (AiWorker.process_transcript api_key transcript (.error e) ti si).1 = .error e)
  ∧ (AiWorker.process_transcript api_key transcript (.ok ()) ti si).1 =
      .ok ((AiWorker.generate_title (ti (pyTake transcript 2000))).1,
           (AiWorker.generate_summary (si (pyTake transcript 4000))).1)
  ∧ (∀ e, (AiWorker.generate_title (Except.error e)).1 = "Untitled Recording")
  ∧ (∀ e, (AiWorker.generate_summary (Except.error e)).1 = "Summary generation failed.") := by
  refine ⟨?_, ?_, fun e => rfl, fun e => rfl⟩ <;>
    simp [AiWorker.process_transcript, h1, not_lt.mpr h2]

/-- Witness for C9 (amended) on a concrete transcript and oracles. -/
theorem error_propagation_amended_witness :
    ("sk-key" : String) ≠ "" ∧ 10 ≤ (pyStrip "a sufficiently long transcript").length ∧
    (AiWorker.process_transcript "sk-key" "a sufficiently long transcript" (.ok ())
        titleInvokeW summaryInvokeW).1 =
      .ok ((AiWorker.generate_title (titleInvokeW (pyTake "a sufficiently long transcript" 2000))).1,
           (AiWorker.generate_summary (summaryInvokeW (pyTake "a sufficiently long transcript" 4000))).1) :=
  ⟨by decide, by decide,
   (error_propagation_amended "sk-key" "a sufficiently long transcript"
      titleInvokeW summaryInvokeW (by decide) (by decide)).2.1⟩

/-- C2: when the input file's size is at most the 25MB hard limit, the
size guard hands the original path to the backend call, creates no file
and performs no truncation; when it exceeds the limit (and decoding and
re-encoding succeed), the backend call receives a substitute at the fresh
temporary path, re-encoded at the fixed 128k bitrate, containing exactly
the prefix `[0, keepDuration)` of the audio where
`keepDuration = floor(originalDurationMs * targetBytes / originalSizeBytes)`. -/
theorem size_guard_spec (w : Openai.World)
    (hex : w.fileExists = true)
    (hext : Openai.supported_extensions.contains w.ext = true)
    (hsz : w.sizeOk = true)
    (hne : w.path ≠ w.tempPath) :
    (w.sizeBytes ≤ Openai.MAX_FILE_SIZE →
        (Openai.transcribe_with_openai w).created = []
      ∧ (Openai.transcribe_with_openai w).uploadedPath = some w.path
      ∧ (Openai.transcribe_with_openai w).truncation = none)
  ∧ (Openai.MAX_FILE_SIZE < w.sizeBytes → w.decodeOk = true → w.exportOk = true →
        (Openai.transcribe_with_openai w).uploadedPath = some w.tempPath
      ∧ (Openai.transcribe_with_openai w).created = [w.tempPath]
      ∧ (Openai.transcribe_with_openai w).truncation =
          some ⟨w.tempPath,
                ((w.durationMs * Openai.TARGET_FILE_SIZE / w.sizeBytes : Nat) : Int),
                w.durationMs * Openai.TARGET_FILE_SIZE / w.sizeBytes, "128k"⟩
      ∧ ((w.durationMs * Openai.TARGET_FILE_SIZE / w.sizeBytes : Nat) : Int)
          = ⌊((w.durationMs * Openai.TARGET_FILE_SIZE : Nat) : Rat) / (w.sizeBytes : Rat)⌋) := by
  have hmem : w.ext ∈ Openai.supported_extensions := by simpa using hext
  have hval : Openai.validate_file_basic w = .ok () := by
    simp [Openai.validate_file_basic, hex, hmem]
  have hsize : Openai.get_file_size w w.path = .ok w.sizeBytes := by
    simp [Openai.get_file_size, hsz, hne]
  constructor
  · intro hle
    have hnotbig : ¬ (Openai.MAX_FILE_SIZE < w.sizeBytes) := not_lt.mpr hle
    unfold Openai.transcribe_with_openai
    rw [hval, hsize]
    simp only [if_neg hnotbig]
    cases hapi : w.api w.path <;> simp [Openai.transcribeTail, hapi]
  · intro hbig hdec hexp
    have hs0 : 0 < w.sizeBytes := lt_trans (by norm_num [Openai.MAX_FILE_SIZE]) hbig
    have ht : Openai.TARGET_FILE_SIZE ≤ w.sizeBytes :=
      le_trans (by norm_num [Openai.TARGET_FILE_SIZE, Openai.MAX_FILE_SIZE]) hbig.le
    have hkd := pyInt_natCast_mul_div w.durationMs Openai.TARGET_FILE_SIZE w.sizeBytes hs0
    have hmin := trunc_slice_len w.durationMs Openai.TARGET_FILE_SIZE w.sizeBytes ht hs0
    have hfloor : ((w.durationMs * Openai.TARGET_FILE_SIZE / w.sizeBytes : Nat) : Int)
        = ⌊((w.durationMs * Openai.TARGET_FILE_SIZE : Nat) : Rat) / (w.sizeBytes : Rat)⌋ := by
      rw [Rat.floor_natCast_div_natCast, Int.natCast_div]
    have htr : Openai.truncate_audio_file w =
        (.ok ⟨w.tempPath,
              ((w.durationMs * Openai.TARGET_FILE_SIZE / w.sizeBytes : Nat) : Int),
              w.durationMs * Openai.TARGET_FILE_SIZE / w.sizeBytes, "128k"⟩,
         (Openai.truncate_audio_file w).2.1, [w.tempPath]) := by
      rw [hkd] at hmin
      unfold Openai.truncate_audio_file
      rw [hdec, hsize]
      simp only [Bool.true_eq_false, if_false, hexp, hkd, hmin]
    unfold Openai.transcribe_with_openai
    rw [hval, hsize]
    simp only [if_pos hbig]
    rw [htr]
    cases hapi : w.api w.tempPath <;>
      simp [Openai.transcribeTail, hapi, hfloor]

/-- Witness for C2 on the concrete 30MB input `worldLarge`. -/
theorem size_guard_spec_witness :
    worldLarge.fileExists = true
  ∧ Openai.supported_extensions.contains worldLarge.ext = true
  ∧ worldLarge.sizeOk = true
  ∧ worldLarge.path ≠ worldLarge.tempPath
  ∧ Openai.MAX_FILE_SIZE < worldLarge.sizeBytes
  ∧ ((Openai.transcribe_with_openai worldLarge).uploadedPath = some worldLarge.tempPath
   ∧ (Openai.transcribe_with_openai worldLarge).created = [worldLarge.tempPath]
   ∧ (Openai.transcribe_with_openai worldLarge).truncation =
       some ⟨worldLarge.tempPath,
             ((worldLarge.durationMs * Openai.TARGET_FILE_SIZE / worldLarge.sizeBytes : Nat) : Int),
             worldLarge.durationMs * Openai.TARGET_FILE_SIZE / worldLarge.sizeBytes, "128k"⟩
   ∧ ((worldLarge.durationMs * Openai.TARGET_FILE_SIZE / worldLarge.sizeBytes : Nat) : Int)
       = ⌊((worldLarge.durationMs * Openai.TARGET_FILE_SIZE : Nat) : Rat) / (worldLarge.sizeBytes : Rat)⌋) :=
  ⟨by decide, by decide, by decide, by decide, by decide,
   (size_guard_spec worldLarge (by decide) (by decide) (by decide) (by decide)).2
     (by decide) (by decide) (by decide)⟩

/-- C1 (counterexample): on a valid small input whose transcription
succeeds but whose requested output-file write fails, the OpenAI worker
emits an `error` event (from `save_output`) and *then* still emits the
final `result` event: two terminal-kind events for one WorkItem, with an
event following the first terminal event. -/
theorem save_output_error_before_result :
    terminalCount (Openai.openai_main worldSmallOk true (.ok ()) (some "out.json") (.error "disk full")).1 = 2
  ∧ (Openai.openai_main worldSmallOk true (.ok ()) (some "out.json") (.error "disk full")).1.getLast?
      = some (Event.resultOpenai "hi" "en" []) := by
  refine ⟨?_, ?_⟩ <;> decide

/-- Successful truncation, written out with its full event list. -/
lemma truncate_ok_full (w : Openai.World) (hdec : w.decodeOk = true) (hexp : w.exportOk = true)
    (hsz : w.sizeOk = true) (hne : w.path ≠ w.tempPath) :
    Openai.truncate_audio_file w =
      (.ok ⟨w.tempPath,
            pyInt ((w.durationMs : Rat) * ((Openai.TARGET_FILE_SIZE : Rat) / (w.sizeBytes : Rat))),
            min (pyInt ((w.durationMs : Rat) * ((Openai.TARGET_FILE_SIZE : Rat) / (w.sizeBytes : Rat)))).toNat w.durationMs,
            "128k"⟩,
       [Event.progress 15 "Loading audio file for truncation...",
        Event.progress 25 "Calculating truncation point...",
        Event.progress 35 ("Truncating to " ++
          Openai.fmtSecs1 (pyInt ((w.durationMs : Rat) * ((Openai.TARGET_FILE_SIZE : Rat) / (w.sizeBytes : Rat)))) ++
          " seconds..."),
        Event.progress 45 "Saving truncated file...",
        Event.progress 50 ("Truncated file size: " ++ Openai.fmtMB1 w.truncSizeBytes)],
       [w.tempPath]) := by
  have hsize : Openai.get_file_size w w.path = .ok w.sizeBytes := by
    simp [Openai.get_file_size, hsz, hne]
  unfold Openai.truncate_audio_file
  rw [hdec, hsize]
  simp [hexp]

/-- On a run whose validation, size handling and API call succeed, the
transcription function returns a successful value and emits only
progress events. -/
lemma transcribe_success_shape (w : Openai.World)
    (hex : w.fileExists = true)
    (hext : Openai.supported_extensions.contains w.ext = true)
    (hsz : w.sizeOk = true)
    (hne : w.path ≠ w.tempPath)
    (hbig : Openai.MAX_FILE_SIZE < w.sizeBytes → w.decodeOk = true ∧ w.exportOk = true)
    (hapi : (w.api (if Openai.MAX_FILE_SIZE < w.sizeBytes then w.tempPath else w.path)).isOk = true) :
    (Openai.transcribe_with_openai w).value.isOk = true
  ∧ (Openai.transcribe_with_openai w).events.countP isTerminal = 0 := by
  have hmem : w.ext ∈ Openai.supported_extensions := by simpa using hext
  have hval : Openai.validate_file_basic w = .ok () := by
    simp [Openai.validate_file_basic, hex, hmem]
  have hsize : Openai.get_file_size w w.path = .ok w.sizeBytes := by
    simp [Openai.get_file_size, hsz, hne]
  by_cases hb : Openai.MAX_FILE_SIZE < w.sizeBytes
  · obtain ⟨hdec, hexp⟩ := hbig hb
    rw [if_pos hb] at hapi
    unfold Openai.transcribe_with_openai
    rw [hval, hsize]
    simp only [if_pos hb]
    rw [truncate_ok_full w hdec hexp hsz hne]
    cases hapi' : w.api w.tempPath <;> rw [hapi'] at hapi <;>
      simp_all [Openai.transcribeTail, Openai.ApiOutcome.isOk, Except.isOk, Except.toBool,
        List.countP_append, List.countP_cons, isTerminal]
  · rw [if_neg hb] at hapi
    unfold Openai.transcribe_with_openai
    rw [hval, hsize]
    simp only [if_neg hb]
    cases hapi' : w.api w.path <;> rw [hapi'] at hapi <;>
      simp_all [Openai.transcribeTail, Openai.ApiOutcome.isOk, Except.isOk, Except.toBool,
        List.countP_append, List.countP_cons, isTerminal]

/-- C1 (amended): in the RemoteAPI worker, a request whose backend call
succeeds and whose optional output-file write succeeds (or is not
requested) emits exactly one terminal event — the `result`, last in the
trace, with every other (progress) event strictly before it and nothing
after.  When the output-file write fails, an additional `error` event is
emitted and the final `result` still follows it, so the trace carries two
terminal-kind events; the process still exits 0. -/
theorem one_terminal_on_success (w : Openai.World) (output_path : Option String)
    (writeResult : Except String Unit)
    (hex : w.fileExists = true)
    (hext : Openai.supported_extensions.contains w.ext = true)
    (hsz : w.sizeOk = true)
    (hne : w.path ≠ w.tempPath)
    (hbig : Openai.MAX_FILE_SIZE < w.sizeBytes → w.decodeOk = true ∧ w.exportOk = true)
    (hapi : (w.api (if Openai.MAX_FILE_SIZE < w.sizeBytes then w.tempPath else w.path)).isOk = true) :
    (Openai.openai_main w true (.ok ()) output_path writeResult).2 = 0
  ∧ ((Openai.openai_main w true (.ok ()) output_path writeResult).1.getLast?.map isResultEvent) = some true
  ∧ ((output_path = none ∨ writeResult = .ok ()) →
       terminalCount (Openai.openai_main w true (.ok ()) output_path writeResult).1 = 1)
  ∧ (output_path.isSome = true → writeResult.isOk = false →
       terminalCount (Openai.openai_main w true (.ok ()) output_path writeResult).1 = 2) := by
  obtain ⟨hok, hcnt⟩ := transcribe_success_shape w hex hext hsz hne hbig hapi
  cases hv : (Openai.transcribe_with_openai w).value with
  | error e => rw [hv] at hok; simp [Except.isOk, Except.toBool] at hok
  | ok res =>
    have hmain : Openai.openai_main w true (.ok ()) output_path writeResult =
        ([Event.progress 0 "Starting OpenAI transcription...",
          Event.progress 2 "Initializing OpenAI client..."] ++
           (Openai.transcribe_with_openai w).events ++
           Openai.save_output output_path writeResult ++
           [Event.resultOpenai res.text res.language res.segments], 0) := by
      simp [Openai.openai_main, hv]
    refine ⟨by rw [hmain], ?_, ?_, ?_⟩
    · rw [hmain]
      simp only [← List.append_assoc, List.getLast?_concat, Option.map_some]
      rfl
    · intro h
      have hsev : Openai.save_output output_path writeResult = [] := by
        rcases h with h | h
        · rw [h]; rfl
        · rw [h]; cases output_path <;> rfl
      rw [hmain]
      simp only [terminalCount, List.countP_append, hcnt, hsev]
      rfl
    · intro hsome hwfail
      obtain ⟨p, hp⟩ := Option.isSome_iff_exists.mp hsome
      obtain ⟨e2, hw⟩ : ∃ e2, writeResult = Except.error e2 := by
        cases writeResult with
        | ok u => simp [Except.isOk, Except.toBool] at hwfail
        | error e2 => exact ⟨e2, rfl⟩
      have hsev : Openai.save_output output_path writeResult
          = [Event.error ("Failed to save output file: " ++ e2) (some "")] := by
        rw [hp, hw]
        rfl
      rw [hmain]
      simp only [terminalCount, List.countP_append, hcnt, hsev]
      rfl

/-- Witness for C1 (amended) on the concrete small input `worldSmallOk`
with no output file requested. -/
theorem one_terminal_on_success_witness :
    worldSmallOk.fileExists = true
  ∧ Openai.supported_extensions.contains worldSmallOk.ext = true
  ∧ worldSmallOk.sizeOk = true
  ∧ worldSmallOk.path ≠ worldSmallOk.tempPath
  ∧ (Openai.MAX_FILE_SIZE < worldSmallOk.sizeBytes → worldSmallOk.decodeOk = true ∧ worldSmallOk.exportOk = true)
  ∧ (worldSmallOk.api (if Openai.MAX_FILE_SIZE < worldSmallOk.sizeBytes then worldSmallOk.tempPath else worldSmallOk.path)).isOk = true
  ∧ ((Openai.openai_main worldSmallOk true (.ok ()) none (.ok ())).2 = 0
   ∧ ((Openai.openai_main worldSmallOk true (.ok ()) none (.ok ())).1.getLast?.map isResultEvent) = some true
   ∧ ((none = (none : Option String) ∨ (Except.ok () : Except String Unit) = .ok ()) →
        terminalCount (Openai.openai_main worldSmallOk true (.ok ()) none (.ok ())).1 = 1)
   ∧ ((none : Option String).isSome = true → (Except.ok () : Except String Unit).isOk = false →
        terminalCount (Openai.openai_main worldSmallOk true (.ok ()) none (.ok ())).1 = 2)) :=
  ⟨by decide, by decide, by decide, by decide, by decide, by decide,
   one_terminal_on_success worldSmallOk none (.ok ()) (by decide) (by decide) (by decide)
     (by decide) (by decide) (by decide)⟩

/-- The batch loop distributes over list append (with the index shifted). -/
lemma batchLoop_append (o : Nat → Except String RawResult) (times : Nat → Rat) (n : Nat)
    (xs ys : List Streaming.ChunkInfo) (i : Nat) :
    Streaming.batchLoop o times n i (xs ++ ys)
      = Streaming.batchLoop o times n i xs ++ Streaming.batchLoop o times n (i + xs.length) ys := by
  induction xs generalizing i with
  | nil => simp [Streaming.batchLoop]
  | cons c rest ih =>
    have harith : i + 1 + rest.length = i + (rest.length + 1) := by omega
    simp only [List.cons_append, Streaming.batchLoop, List.append_eq, ih, List.length_cons,
      List.append_assoc, harith]

/-- A successful model load emits no chunk-level events. -/
lemma load_ok_facts (st : Streaming.CacheState) (name : String) (cuda : Bool) :
    (Streaming.load_model_if_needed st name cuda (.ok ())).result = .ok ()
  ∧ (Streaming.load_model_if_needed st name cuda (.ok ())).events.countP isChunkResult = 0
  ∧ (Streaming.load_model_if_needed st name cuda (.ok ())).events.countP isChunkError = 0
  ∧ (Streaming.load_model_if_needed st name cuda (.ok ())).events.filterMap chunkResultId = []
  ∧ (Streaming.load_model_if_needed st name cuda (.ok ())).events.filterMap chunkErrorId = [] := by
  by_cases h : st.loadedName = some name <;>
    simp [Streaming.load_model_if_needed, h, isChunkResult, isChunkError, chunkResultId,
      chunkErrorId]

/-- Over a stretch of chunks whose backend calls all succeed, the batch
loop emits one `chunk_result` per chunk, in input order, and no
`chunk_error`. -/
lemma batchLoop_ok_facts (o : Nat → Except String RawResult) (times : Nat → Rat) (n : Nat)
    (cs : List Streaming.ChunkInfo) (i : Nat)
    (h : ∀ j, i ≤ j → j < i + cs.length → (o j).isOk = true) :
    (Streaming.batchLoop o times n i cs).countP isChunkResult = cs.length
  ∧ (Streaming.batchLoop o times n i cs).countP isChunkError = 0
  ∧ (Streaming.batchLoop o times n i cs).filterMap chunkResultId = Streaming.idsOf i cs
  ∧ (Streaming.batchLoop o times n i cs).filterMap chunkErrorId = [] := by
  induction cs generalizing i with
  | nil => simp [Streaming.batchLoop, Streaming.idsOf]
  | cons c rest ih =>
    have hi : (o i).isOk = true := h i le_rfl (by simp only [List.length_cons]; omega)
    obtain ⟨raw, hraw⟩ : ∃ raw, o i = .ok raw := by
      cases hoi : o i with
      | error e => rw [hoi] at hi; simp [Except.isOk, Except.toBool] at hi
      | ok raw => exact ⟨raw, rfl⟩
    have ih' := ih (i + 1)
      (fun j hj1 hj2 => h j (by omega) (by simp only [List.length_cons]; omega))
    simp only [Streaming.batchLoop, Streaming.transcribe_chunk_fast, hraw, Streaming.idsOf]
    simp [List.countP_append, List.countP_cons, List.filterMap_append, List.filterMap_cons,
      isChunkResult, isChunkError, chunkResultId, chunkErrorId,
      ih'.1, ih'.2.1, ih'.2.2.1, ih'.2.2.2]

/-- C4: for a batch of `N = |l1| + 1 + |l2|` chunks in which exactly the
chunk at position `k = |l1|` fails during transcription, the emitted
stream contains exactly `N - 1` `chunk_result` events — one per
successful chunk, in input order — exactly one `chunk_error` event
carrying the failing chunk's identifier, and the final event is the
overall batch-completion progress event: the failing chunk does not abort
the processing of the remaining chunks. -/
theorem batch_partial_failure (st : Streaming.CacheState) (model_name : String) (cuda : Bool)
    (o : Nat → Except String RawResult) (times : Nat → Rat)
    (l1 l2 : List Streaming.ChunkInfo) (ck : Streaming.ChunkInfo) (ek : String)
    (hfail : o l1.length = .error ek)
    (hok : ∀ j, j ≠ l1.length → (o j).isOk = true) :
    (Streaming.batch_transcribe_chunks st model_name cuda (.ok ()) o times (l1 ++ ck :: l2)).countP isChunkResult
      = l1.length + l2.length
  ∧ (Streaming.batch_transcribe_chunks st model_name cuda (.ok ()) o times (l1 ++ ck :: l2)).countP isChunkError
      = 1
  ∧ (Streaming.batch_transcribe_chunks st model_name cuda (.ok ()) o times (l1 ++ ck :: l2)).filterMap chunkErrorId
      = [Streaming.chunkIdOf l1.length ck]
  ∧ (Streaming.batch_transcribe_chunks st model_name cuda (.ok ()) o times (l1 ++ ck :: l2)).filterMap chunkResultId
      = Streaming.idsOf 0 l1 ++ Streaming.idsOf (l1.length + 1) l2
  ∧ (Streaming.batch_transcribe_chunks st model_name cuda (.ok ()) o times (l1 ++ ck :: l2)).getLast?
      = some (Event.progress 100 "Batch processing complete") := by
  obtain ⟨hres, hcr, hce, hfr, hfe⟩ := load_ok_facts st model_name cuda
  have hbatch : Streaming.batch_transcribe_chunks st model_name cuda (.ok ()) o times (l1 ++ ck :: l2)
      = Event.progress 0 "Starting batch transcription" ::
        ((Streaming.load_model_if_needed st model_name cuda (.ok ())).events ++
         Streaming.batchLoop o times (l1 ++ ck :: l2).length 0 (l1 ++ ck :: l2) ++
         [Event.progress 100 "Batch processing complete"]) := by
    unfold Streaming.batch_transcribe_chunks
    dsimp only
    rw [hres]
  have hA := batchLoop_ok_facts o times (l1.length + (l2.length + 1)) l1 0
    (fun j _ hj2 => hok j (by omega))
  have hB := batchLoop_ok_facts o times (l1.length + (l2.length + 1)) l2 (l1.length + 1)
    (fun j hj1 _ => hok j (by omega))
  have hmid : Streaming.batchLoop o times (l1.length + (l2.length + 1)) l1.length (ck :: l2)
      = [Event.progress ((30 + l1.length * 60 / (l1.length + (l2.length + 1)) : Nat) : Int)
           ("Processing chunk " ++ toString (l1.length + 1) ++ "/" ++ toString (l1.length + (l2.length + 1))),
         Event.progress 30 ("Processing chunk " ++ Streaming.chunkIdOf l1.length ck),
         Event.error ("Chunk transcription failed: " ++ ek) (some "traceback"),
         Event.chunkError (Streaming.chunkIdOf l1.length ck) ek] ++
        Streaming.batchLoop o times (l1.length + (l2.length + 1)) (l1.length + 1) l2 := by
    simp [Streaming.batchLoop, Streaming.transcribe_chunk_fast, hfail]
  rw [hbatch, batchLoop_append, Nat.zero_add]
  simp only [List.length_append, List.length_cons]
  rw [hmid]
  refine ⟨?_, ?_, ?_, ?_, ?_⟩
  · simp [List.countP_append, List.countP_cons, hcr, hA.1, hB.1, isChunkResult, chunkResultId]
  · simp [List.countP_append, List.countP_cons, hce, hA.2.1, hB.2.1, isChunkError, chunkErrorId]
  · simp [List.filterMap_append, List.filterMap_cons, hfe, hA.2.2.2, hB.2.2.2, chunkErrorId]
  · simp [List.filterMap_append, List.filterMap_cons, hfr, hA.2.2.1, hB.2.2.1, chunkResultId]
  · rw [← List.singleton_append]
    simp only [← List.append_assoc]
    rw [List.getLast?_concat]

/-- Witness for C4: three chunks `c0, c1, c2` where exactly chunk 1
fails — two `chunk_result` events in input order, one `chunk_error` for
`c1`, and the batch-completion progress event last. -/
theorem batch_partial_failure_witness :
    batchOutcomes 1 = .error "decode failed"
  ∧ ((Streaming.batch_transcribe_chunks ⟨none, 0⟩ "tiny" false (.ok ()) batchOutcomes
        (fun _ => 1) batchChunks).countP isChunkResult = 2
   ∧ (Streaming.batch_transcribe_chunks ⟨none, 0⟩ "tiny" false (.ok ()) batchOutcomes
        (fun _ => 1) batchChunks).countP isChunkError = 1
   ∧ (Streaming.batch_transcribe_chunks ⟨none, 0⟩ "tiny" false (.ok ()) batchOutcomes
        (fun _ => 1) batchChunks).filterMap chunkErrorId = ["c1"]
   ∧ (Streaming.batch_transcribe_chunks ⟨none, 0⟩ "tiny" false (.ok ()) batchOutcomes
        (fun _ => 1) batchChunks).filterMap chunkResultId = ["c0", "c2"]
   ∧ (Streaming.batch_transcribe_chunks ⟨none, 0⟩ "tiny" false (.ok ()) batchOutcomes
        (fun _ => 1) batchChunks).getLast?
       = some (Event.progress 100 "Batch processing complete")) :=
  ⟨rfl,
   batch_partial_failure ⟨none, 0⟩ "tiny" false batchOutcomes (fun _ => 1)
     [⟨"a.wav", some "c0"⟩] [⟨"c.wav", some "c2"⟩] ⟨"b.wav", some "c1"⟩ "decode failed"
     rfl
     (by
       intro j hj
       have hj1 : j ≠ 1 := by simpa using hj
       simp [batchOutcomes, Except.isOk, Except.toBool, if_neg hj1])⟩
